import Mathlib

/-!
# Verification of the kong-adapter low-level utils layer

Shallow embedding of `src/kong/utils.ts` of ThomsonReuters-IPS/wicked.kong-adapter:
the run-time JavaScript value model, the object matcher (`matchObjects` /
`matchObjectsInternal`), the availability gate, the statistics recorder
(`kongActionStat`, `resetStatistics`, `getStatistics`), the retrying action
executor (`kongAction` / `tryRequest`) and the composite API operations
(`kongPostApi`, `kongPatchApi`, `kongDeleteApi`), together with theorems about
the behaviour of these definitions.

Module-level mutable state (`_kongUrl`, `_kongAvailable`, `_statistics`, ...)
becomes an explicit `RunState` threaded through the operations; the callback
style of the source becomes a returned result value (each source path invokes
its callback exactly once or throws, which the result type records
explicitly).  The network is a transport oracle the operations are
parameterised over.
-/

namespace KongAdapter

/-- Run-time JavaScript values as manipulated by the adapter.  Numbers are
modelled as integers (the payloads the adapter builds and compares carry
ports, sizes, flags and identifiers; floating point is out of scope).
`jundefined` is JavaScript `undefined`, distinct from `jnull` (`null`). -/
inductive JValue where
  | jundefined
  | jnull
  | jbool (b : Bool)
  | jnum (n : Int)
  | jstr (s : String)
  | jobj (fields : List (String × JValue))
  | jarr (items : List JValue)

open JValue

/-- JavaScript `typeof`: `typeof null` is `"object"` and arrays are objects. -/
def typeOf : JValue → String
  | jundefined => "undefined"
  | jnull => "object"
  | jbool _ => "boolean"
  | jnum _ => "number"
  | jstr _ => "string"
  | jobj _ => "object"
  | jarr _ => "object"

/-- Index/value pairs of a string, as `for..in` enumerates a string's
own index properties (single-character strings). -/
def strFields : Nat → List Char → List (String × JValue)
  | _, [] => []
  | i, c :: cs => (toString i, jstr (String.mk [c])) :: strFields (i + 1) cs

/-- Index/value pairs of an array, as `for..in` enumerates an array's
own index properties. -/
def idxFields : Nat → List JValue → List (String × JValue)
  | _, [] => []
  | i, x :: xs => (toString i, x) :: idxFields (i + 1) xs

/-- The own enumerable properties of a value with their values, in
enumeration order: an object's fields in insertion order, an array's or a
string's indexed elements, and nothing for the remaining primitives.
(The non-enumerable `length` property of arrays and strings is not an
own *enumerable* property and is not produced by `for..in`.) -/
def jfields : JValue → List (String × JValue)
  | jobj fs => fs
  | jarr xs => idxFields 0 xs
  | jstr s => strFields 0 s.data
  | _ => []

/-- The own property keys of a value, or `none` when asking is a
`TypeError` (`null`/`undefined` have no boxed object form, so
`hasOwnProperty` throws on them). -/
def ownKeys : JValue → Option (List String)
  | jnull => none
  | jundefined => none
  | v => some ((jfields v).map Prod.fst)

/-- Whether a value has an own property of the given name, with no
exception behaviour: `null` and `undefined` simply have no properties.
Used by the specification-side containment relation. -/
def hasKey (v : JValue) (p : String) : Bool :=
  ((ownKeys v).getD []).contains p

/-- `v.hasOwnProperty(p)`: `none` models the thrown `TypeError` when `v` is
`null` or `undefined`. -/
def hasOwn (v : JValue) (p : String) : Option Bool :=
  (ownKeys v).map (fun ks => ks.contains p)

/-- Property access `v[p]`: the stored value, or `undefined` when absent.
(In the matcher it is only evaluated after `hasOwnProperty` returned
`true`, so the `undefined` default is never observed there.) -/
def getProp : JValue → String → JValue
  | jobj fs, p =>
    match fs.find? (fun kv => kv.1 == p) with
    | some kv => kv.2
    | none => jundefined
  | jarr xs, p =>
    match p.toNat? with
    | some i => xs.getD i jundefined
    | none => jundefined
  | jstr s, p =>
    match p.toNat? with
    | some i =>
      match s.data.get? i with
      | some c => jstr (String.mk [c])
      | none => jundefined
    | none => jundefined
  | _, _ => jundefined

/-- JavaScript loose equality (`==`) on the cases the matcher can reach it
in: both operands already have the same run-time type and that type is not
`"object"` (object-typed values are recursed into instead of compared), so
no cross-type coercion case is reachable. -/
def looseEq : JValue → JValue → Bool
  | jundefined, jundefined => true
  | jbool a, jbool b => a == b
  | jnum a, jnum b => a == b
  | jstr a, jstr b => a == b
  | _, _ => false

/-- Property assignment on an object's field list: overwrite in place when
the key exists, append (insertion order) when it does not. -/
def setField : List (String × JValue) → String → JValue → List (String × JValue)
  | [], p, x => [(p, x)]
  | (q, w) :: rest, p, x =>
    if q == p then (p, x) :: rest else (q, w) :: setField rest p x

/-- Property assignment `v[p] = x`; only ever applied to objects by the
adapter (assignment to a non-object is left as the identity here). -/
def setProp (v : JValue) (p : String) (x : JValue) : JValue :=
  match v with
  | jobj fs => jobj (setField fs p x)
  | other => other

/-- JavaScript falsiness, as tested by `if (!existingRoute)`. -/
def isFalsy : JValue → Bool
  | jundefined => true
  | jnull => true
  | jbool false => true
  | jnum 0 => true
  | jstr "" => true
  | _ => false

/-- String interpolation of a non-array value (template literals), used for
building request URLs such as `routes/` followed by the route id. -/
def templateStrAtom : JValue → String
  | jundefined => "undefined"
  | jnull => "null"
  | jbool true => "true"
  | jbool false => "false"
  | jnum n => toString n
  | jstr s => s
  | jobj _ => "[object Object]"
  | jarr _ => ""

/-- String interpolation of a value; arrays stringify as their comma-joined
elements (one level suffices: nested arrays never occur in the URLs the
adapter builds). -/
def templateStr : JValue → String
  | jarr xs => String.intercalate "," (xs.map templateStrAtom)
  | v => templateStrAtom v

/-- `getJson` from the source: a textual body parses to its structured form
(the empty string to `null`), an already-structured body passes through.
In this embedding response bodies are carried in their structured `JValue`
form, so the `JSON.parse` of a non-empty textual body is represented by the
body already being structured; only the empty-string case keeps its textual
view. -/
def getJson : JValue → JValue
  | jstr "" => jnull
  | v => v

/-! ## Statistics and module state -/

/-- One recorded Kong API action, `{method, url, body}`, as pushed onto
`_statistics.actions` by `kongActionStat`. -/
structure KongCall where
  method : String
  url : String
  body : JValue

/-- `SyncStatistics`: the per-verb counters (stored in the source as dynamic
properties `_statistics[method]`, here as a total count function defaulting
to zero, which also models the `if (!_statistics[method])` initialisation),
the ordered action log and the list of failed comparisons. -/
structure SyncStatistics where
  counters : String → Nat
  actions : List KongCall
  failedComparisons : List (JValue × JValue)

def defaultStatistics : SyncStatistics :=
  { counters := fun _ => 0, actions := [], failedComparisons := [] }

/-- The module-level mutable state of `utils.ts`: `_kongUrl`,
`_kongAvailable`, `_kongMessage`, `_kongClusterStatus`, `_statistics` and
`_keepChangingActions`; plus `calls`, verification instrumentation that
records, in order, every `kongAction` invocation that passed the
availability gate and actually issued its request (used to state ordering
and no-rollback properties; the source has no such list). -/
structure RunState where
  kongUrl : Option String
  kongAvailable : Bool
  kongMessage : JValue
  kongClusterStatus : JValue
  statistics : SyncStatistics
  keepChangingActions : Bool
  calls : List KongCall

/-- The state right after module initialisation: the gate starts available
("otherwise the first call will not succeed"), no URL, empty statistics. -/
def initialState : RunState :=
  { kongUrl := none
    kongAvailable := true
    kongMessage := jnull
    kongClusterStatus := jnull
    statistics := defaultStatistics
    keepChangingActions := false
    calls := [] }

def setKongUrl (url : String) (st : RunState) : RunState :=
  { st with kongUrl := some url }

def markKongAvailable (kongAvailable : Bool) (kongMessage clusterStatus : JValue)
    (st : RunState) : RunState :=
  { st with kongAvailable := kongAvailable, kongMessage := kongMessage,
            kongClusterStatus := clusterStatus }

def isKongAvailable (st : RunState) : Bool :=
  st.kongAvailable

def getKongClusterStatus (st : RunState) : JValue :=
  st.kongClusterStatus

/-- `resetStatistics`: fresh statistics, and the keep-changing-actions flag
set exactly when requested. -/
def resetStatistics (keepChangingActions : Bool) (st : RunState) : RunState :=
  { st with statistics := defaultStatistics,
            keepChangingActions := keepChangingActions }

/-- `getStatistics`: returns the current statistics and clears the
keep-changing-actions flag. -/
def getStatistics (st : RunState) : SyncStatistics × RunState :=
  (st.statistics, { st with keepChangingActions := false })

/-! ## The object matcher -/

/-- The `for..in` body of `matchObjectsInternal` specialised to a string on
the left-hand side: the enumerated values are one-character strings, whose
run-time type `"string"` is never `"object"`, so the recursive branch of the
loop body is unreachable and the comparison is the loose-equality one.
(Split out of the mutual block below only because its recursion is trivial.) -/
def matchStrItems : Nat → List Char → JValue → Option Bool
  | _, [], _ => some true
  | i, c :: rest, kongObject =>
    match hasOwn kongObject (toString i) with
    | none => none
    | some false => some false
    | some true =>
      let av := jstr (String.mk [c])
      let bv := getProp kongObject (toString i)
      if typeOf av ≠ typeOf bv then some false
      else if looseEq av bv then matchStrItems (i + 1) rest kongObject
      else some false

mutual

/-- `matchObjectsInternal` from the source: iterate over the own enumerable
properties of `apiObject` (`for (let prop in apiObject)`); each must exist
on `kongObject` (`hasOwnProperty`, which throws on `null`/`undefined`,
modelled by `none`), have the same `typeof`, and either recursively match
(object-typed values) or be loosely equal (other types).  `null`, booleans
and numbers have no enumerable own properties, so the loop body never runs
for them and `true` is returned. -/
def matchObjectsInternal : JValue → JValue → Option Bool
  | jobj fs, kongObject => matchFields fs kongObject
  | jarr xs, kongObject => matchItems 0 xs kongObject
  | jstr s, kongObject => matchStrItems 0 s.data kongObject
  | _, _ => some true

/-- The `for..in` loop of `matchObjectsInternal` over an object's fields. -/
def matchFields : List (String × JValue) → JValue → Option Bool
  | [], _ => some true
  | (p, av) :: rest, kongObject =>
    match hasOwn kongObject p with
    | none => none
    | some false => some false
    | some true =>
      let bv := getProp kongObject p
      if typeOf av ≠ typeOf bv then some false
      else if typeOf av = "object" then
        match matchObjectsInternal av bv with
        | none => none
        | some false => some false
        | some true => matchFields rest kongObject
      else if looseEq av bv then matchFields rest kongObject
      else some false

/-- The `for..in` loop of `matchObjectsInternal` over an array's indexed
elements. -/
def matchItems : Nat → List JValue → JValue → Option Bool
  | _, [], _ => some true
  | i, av :: rest, kongObject =>
    match hasOwn kongObject (toString i) with
    | none => none
    | some false => some false
    | some true =>
      let bv := getProp kongObject (toString i)
      if typeOf av ≠ typeOf bv then some false
      else if typeOf av = "object" then
        match matchObjectsInternal av bv with
        | none => none
        | some false => some false
        | some true => matchItems (i + 1) rest kongObject
      else if looseEq av bv then matchItems (i + 1) rest kongObject
      else some false

end

/-- `matchObjects`: run the internal containment check; on a completed
mismatch, and only when `_keepChangingActions` is set, push the offending
pair onto `_statistics.failedComparisons`.  `none` models the `TypeError`
that `matchObjectsInternal` can throw (observed `null` under an
object-typed desired property). -/
def matchObjects (st : RunState) (apiObject kongObject : JValue) :
    Option (Bool × RunState) :=
  match matchObjectsInternal apiObject kongObject with
  | none => none
  | some returnValue =>
    if ¬returnValue ∧ st.keepChangingActions then
      some (returnValue,
        { st with statistics :=
          { st.statistics with failedComparisons :=
              st.statistics.failedComparisons ++ [(apiObject, kongObject)] } })
    else
      some (returnValue, st)

/-! ## The retrying action executor -/

def KONG_TIMEOUT : Nat := 5000
def KONG_RETRY_DELAY : Nat := 2000
def KONG_MAX_ATTEMPTS : Nat := 10

/-- A JavaScript `Error` as surfaced to callbacks: its message and the
`status` property the source optionally sets on it.  (The response body is
not a field: no error constructed by the source carries one.) -/
structure JsError where
  message : String
  status : Option Nat

/-- Result of one attempt of the `request` library: a transport-level
failure (connection refused, timeout, DNS failure — anything short of a
response; carries the error object the library passes), or a received
response with its status code and body. -/
inductive TransportResult where
  | failure (e : JsError)
  | response (statusCode : Nat) (body : JValue)

/-- Network behaviour of one logical `kongAction` call, per attempt number. -/
def AttemptTransport : Type := Nat → TransportResult

/-- Network behaviour of a whole run: per logical call (indexed by the
number of previously issued `kongAction` calls) and per attempt number. -/
def Transport : Type := Nat → Nat → TransportResult

/-- Outcome of a `kongAction`-style operation: the callback is invoked
exactly once, with an error (`err`) or a value (`ok`); or a synchronous
exception escapes (`thrown`). -/
inductive ActionResult where
  | thrown (msg : String)
  | err (e : JsError)
  | ok (v : JValue)

/-- `kongActionStat`: bump the per-verb counter (creating it at zero when
absent), and push a `{method, url, body}` entry onto the action log exactly
when the keep-changing-actions flag is set and the verb is not `GET`. -/
def kongActionStat (method url : String) (body : JValue) (st : RunState) :
    RunState :=
  { st with statistics :=
    { st.statistics with
      counters := fun m =>
        if m = method then st.statistics.counters m + 1
        else st.statistics.counters m
      actions :=
        if st.keepChangingActions ∧ method ≠ "GET" then
          st.statistics.actions ++
            [{ method := method, url := url, body := body }]
        else st.statistics.actions } }

/-- The `tryRequest` loop inside `kongAction`: issue the request; on a
transport-level failure either give up (attempt counter above
`KONG_MAX_ATTEMPTS`), marking the gate available again ("otherwise we would
get stuck in a deadlock loop") and surfacing the transport error, or mark
the gate unavailable and retry the same request under the next attempt
number (the fixed `KONG_RETRY_DELAY` pause has no further observable
effect).  On a received response, mark the gate available; a status code
different from the expected one fails with an error whose message carries
the actual and expected codes and whose `status` property is the actual
code (the response body is only debug-logged, not attached); otherwise
return the parsed body. -/
def tryRequest (t : AttemptTransport) (method url : String)
    (expectedStatusCode : Nat) (attempt : Nat) (st : RunState) :
    ActionResult × RunState :=
  match t attempt with
  | .failure e =>
    if attempt > KONG_MAX_ATTEMPTS then
      (.err e, { st with kongAvailable := true })
    else
      tryRequest t method url expectedStatusCode (attempt + 1)
        { st with kongAvailable := false }
  | .response statusCode body =>
    let st1 := { st with kongAvailable := true }
    if expectedStatusCode ≠ statusCode then
      (.err { message := "kongAction " ++ method ++ " on " ++ url ++
                " did not return the expected status code (got: " ++
                toString statusCode ++ ", expected: " ++
                toString expectedStatusCode ++ ").",
              status := some statusCode }, st1)
    else
      (.ok (getJson body), st1)
termination_by KONG_MAX_ATTEMPTS + 2 - attempt
decreasing_by
  simp_wf
  simp only [KONG_MAX_ATTEMPTS] at *
  omega

/-- `kongAction`: record statistics (always, before anything else); fail
fast with the endpoint-unavailable error when the gate is closed; throw
when no Kong URL was ever set (`getKongUrl`); otherwise record the call in
the instrumentation trace and run the attempt loop from attempt `0`. -/
def kongAction (t : Transport) (method url : String) (body : JValue)
    (expectedStatusCode : Nat) (st : RunState) : ActionResult × RunState :=
  let st1 := kongActionStat method url body st
  if ¬st1.kongAvailable then
    (.err { message := "kong admin end point not available: " ++
              templateStr st1.kongMessage,
            status := some 500 }, st1)
  else
    match st1.kongUrl with
    | none =>
      (.thrown "utils.setKongUrl was never called, kong URL is yet unknown",
       st1)
    | some _ =>
      let callIndex := st1.calls.length
      let st2 := { st1 with calls :=
        st1.calls ++ [{ method := method, url := url, body := body }] }
      tryRequest (t callIndex) method url expectedStatusCode 0 st2

/-- The state on which the attempt loop of an issued `kongAction` starts:
statistics recorded and the call appended to the instrumentation trace. -/
def issuedState (method url : String) (body : JValue) (st : RunState) :
    RunState :=
  { st with
    statistics := (kongActionStat method url body st).statistics
    calls := st.calls ++ [{ method := method, url := url, body := body }] }

def kongGet (t : Transport) (url : String) (st : RunState) :
    ActionResult × RunState :=
  kongAction t "GET" url jnull 200 st

def kongPost (t : Transport) (url : String) (body : JValue) (st : RunState) :
    ActionResult × RunState :=
  kongAction t "POST" url body 201 st

def kongDelete (t : Transport) (url : String) (st : RunState) :
    ActionResult × RunState :=
  kongAction t "DELETE" url jnull 204 st

def kongPatch (t : Transport) (url : String) (body : JValue) (st : RunState) :
    ActionResult × RunState :=
  kongAction t "PATCH" url body 200 st

/-! ## Typed resource accessors -/

def kongGetAllServices (t : Transport) (st : RunState) :
    ActionResult × RunState :=
  kongGet t "services?size=100000" st

def kongPostService (t : Transport) (service : JValue) (st : RunState) :
    ActionResult × RunState :=
  kongPost t "services" service st

def kongPatchService (t : Transport) (serviceId : String) (service : JValue)
    (st : RunState) : ActionResult × RunState :=
  kongPatch t ("services/" ++ serviceId) service st

def kongDeleteService (t : Transport) (serviceId : String) (st : RunState) :
    ActionResult × RunState :=
  kongDelete t ("services/" ++ serviceId) st

def kongGetAllRoutes (t : Transport) (st : RunState) :
    ActionResult × RunState :=
  kongGet t "routes?size=100000" st

def kongPostRoute (t : Transport) (route : JValue) (st : RunState) :
    ActionResult × RunState :=
  kongPost t "routes" route st

def kongPatchRoute (t : Transport) (routeId : String) (route : JValue)
    (st : RunState) : ActionResult × RunState :=
  kongPatch t ("routes/" ++ routeId) route st

def kongDeleteRoute (t : Transport) (routeId : String) (st : RunState) :
    ActionResult × RunState :=
  kongDelete t ("routes/" ++ routeId) st

/-- `kongGetRouteForService`: list the routes scoped to the service; an
empty collection yields `null`, exactly one route yields it, and several
yield the first one (after a warning in the source — same returned value).
Reading `.data.length` of a result without an array `data` field is a
`TypeError`. -/
def kongGetRouteForService (t : Transport) (serviceId : String)
    (st : RunState) : ActionResult × RunState :=
  match kongGet t ("services/" ++ serviceId ++ "/routes") st with
  | (.thrown m, st1) => (.thrown m, st1)
  | (.err e, st1) => (.err e, st1)
  | (.ok routes, st1) =>
    match getProp routes "data" with
    | .jarr [] => (.ok jnull, st1)
    | .jarr (r :: _) => (.ok r, st1)
    | _ => (.thrown "TypeError: cannot read length of routes.data", st1)

/-! ## Entity translators (wicked-sdk) and composite API operations -/

/-- Modelled from the spec: `wicked-sdk`'s `kongApiToServiceRoute` (the
Entity Translators' `toSplitForm`), which is not part of this repository's
sources.  Per spec section 4.4 it splits the composite API entity into the
gateway-native Service (upstream definition derived from the composite's
name and upstream target) and Route (path/protocol matching rule), the
mapping being lossless for the modeled attributes; the Route's reference to
its Service is filled in later by the caller. -/
def kongApiToServiceRoute (api : JValue) : JValue × JValue :=
  (jobj [("name", getProp api "name"), ("url", getProp api "upstream_url")],
   jobj [("name", getProp api "name"), ("paths", getProp api "uris"),
         ("protocols", getProp api "protocols")])

/-- Modelled from the spec: `wicked-sdk`'s `kongServiceRouteToApi` (the
Entity Translators' `toCompositeForm`), which is not part of this
repository's sources.  Per spec section 4.4 it rebuilds the composite
entity by reading the observed service's and route's fields; reading fields
of `undefined` or `null` — as happens when `kongPatchApi` passes it the
missing results of a failed series — throws a `TypeError`, modelled by
`none`. -/
def kongServiceRouteToApi (service route : JValue) : Option JValue :=
  match service, route with
  | jundefined, _ => none
  | jnull, _ => none
  | _, jundefined => none
  | _, jnull => none
  | s, r =>
    some (jobj [("id", getProp s "id"), ("name", getProp s "name"),
                ("upstream_url", getProp s "url"),
                ("uris", getProp r "paths"),
                ("protocols", getProp r "protocols")])

/-- Outcome of `kongPatchApi`, whose error path can also return without
ever invoking the caller's callback (`noCallback`). -/
inductive CompositeResult where
  | thrown (msg : String)
  | noCallback
  | err (e : JsError)
  | ok (v : JValue)

/-- `kongPostApi`: translate the composite to split form, create the
Service, then point the Route's `service` reference at the created
Service's `id` and create the Route — an `async.waterfall`, strictly in
sequence.  Any error is passed to the callback as-is; no compensation
(delete) call is ever made for the already-created Service. -/
def kongPostApi (t : Transport) (apiConfig : JValue) (st : RunState) :
    ActionResult × RunState :=
  let sr := kongApiToServiceRoute apiConfig
  match kongPostService t sr.1 st with
  | (.thrown m, st1) => (.thrown m, st1)
  | (.err e, st1) => (.err e, st1)
  | (.ok s, st1) =>
    let route2 := setProp sr.2 "service" (jobj [("id", getProp s "id")])
    match kongPostRoute t route2 st1 with
    | (.thrown m, st2) => (.thrown m, st2)
    | (.err e, st2) => (.err e, st2)
    | (.ok r, st2) =>
      match kongServiceRouteToApi s r with
      | none => (.thrown "TypeError in kongServiceRouteToApi", st2)
      | some api => (.ok api, st2)

/-- `kongPatchApi`: look up the existing Route for the Service, then PATCH
the Service and the Route in series.  Two error paths are modelled exactly
as the source writes them: a route-lookup error hits `if (err) return err;`
inside the callback — the error value is returned into the void and the
caller's callback is never invoked (`noCallback`); and the series' final
callback ignores its error argument and unconditionally builds the
composite from `results.persistedService` / `results.persistedRoute`,
which are `undefined` for the steps that did not complete. -/
def kongPatchApi (t : Transport) (apiId : String) (apiConfig : JValue)
    (st : RunState) : CompositeResult × RunState :=
  let sr := kongApiToServiceRoute apiConfig
  let service := setProp sr.1 "id" (jstr apiId)
  match kongGetRouteForService t apiId st with
  | (.thrown m, st1) => (.thrown m, st1)
  | (.err _, st1) => (.noCallback, st1)
  | (.ok existingRoute, st1) =>
    if isFalsy existingRoute then
      (.err { message := "Could not retrieve route for service " ++ apiId,
              status := none }, st1)
    else
      let route := setProp (setProp sr.2 "id" (getProp existingRoute "id"))
        "service" (jobj [("id",
          getProp (getProp existingRoute "service") "id")])
      match kongPatchService t apiId service st1 with
      | (.thrown m, st2) => (.thrown m, st2)
      | (.err _, st2) =>
        match kongServiceRouteToApi jundefined jundefined with
        | none => (.thrown "TypeError in kongServiceRouteToApi", st2)
        | some api => (.ok api, st2)
      | (.ok persistedService, st2) =>
        match kongPatchRoute t (templateStr (getProp route "id")) route st2 with
        | (.thrown m, st3) => (.thrown m, st3)
        | (.err _, st3) =>
          match kongServiceRouteToApi persistedService jundefined with
          | none => (.thrown "TypeError in kongServiceRouteToApi", st3)
          | some api => (.ok api, st3)
        | (.ok persistedRoute, st3) =>
          match kongServiceRouteToApi persistedService persistedRoute with
          | none => (.thrown "TypeError in kongServiceRouteToApi", st3)
          | some api => (.ok api, st3)

/-- `kongDeleteApi`: look up the Route for the Service, delete the Route,
then delete the Service — the reverse of creation order.  When no route
exists the lookup yields `null` and the source dereferences `route.id`
without a check: a `TypeError` is thrown and the callback is never
invoked. -/
def kongDeleteApi (t : Transport) (apiId : String) (st : RunState) :
    ActionResult × RunState :=
  match kongGetRouteForService t apiId st with
  | (.thrown m, st1) => (.thrown m, st1)
  | (.err e, st1) => (.err e, st1)
  | (.ok route, st1) =>
    match route with
    | jnull => (.thrown "TypeError: cannot read id of null", st1)
    | _ =>
      match kongDeleteRoute t (templateStr (getProp route "id")) st1 with
      | (.thrown m, st2) => (.thrown m, st2)
      | (.err e, st2) => (.err e, st2)
      | (.ok _, st2) => kongDeleteService t apiId st2

/-! ## Matcher lemmas -/

/-- If a value has an own property under the exception-free reading, then
`hasOwnProperty` succeeds and returns `true`. -/
lemma hasOwn_of_hasKey {v : JValue} {p : String} (h : hasKey v p = true) :
    hasOwn v p = some true := by
  unfold hasKey at h
  unfold hasOwn
  cases hk : ownKeys v with
  | none => rw [hk] at h; simp at h
  | some ks => rw [hk] at h; simp at h ⊢; exact h

/-- If a value lacks an own property, `hasOwnProperty` never returns
`true` (it returns `false` or throws). -/
lemma hasOwn_ne_true_of_not_hasKey {v : JValue} {p : String}
    (h : hasKey v p = false) : hasOwn v p ≠ some true := by
  unfold hasKey at h
  unfold hasOwn
  cases hk : ownKeys v with
  | none => simp
  | some ks => rw [hk] at h; simp at h ⊢; simpa using h

/-- The array loop is the field loop over the array's indexed fields. -/
lemma matchItems_eq_matchFields (ko : JValue) :
    ∀ (xs : List JValue) (i : Nat),
      matchItems i xs ko = matchFields (idxFields i xs) ko := by
  intro xs
  induction xs with
  | nil => intro i; simp [matchItems, idxFields, matchFields]
  | cons av rest ih =>
    intro i
    rw [matchItems, idxFields, matchFields]
    simp only [ih]

/-- The string loop is the field loop over the string's indexed fields
(the object-typed branch is unreachable for one-character strings). -/
lemma matchStrItems_eq_matchFields (ko : JValue) :
    ∀ (cs : List Char) (i : Nat),
      matchStrItems i cs ko = matchFields (strFields i cs) ko := by
  intro cs
  induction cs with
  | nil => intro i; simp [matchStrItems, strFields, matchFields]
  | cons c rest ih =>
    intro i
    rw [matchStrItems, strFields, matchFields]
    simp only [ih, typeOf]
    rfl

/-- `matchObjectsInternal` is uniformly the field loop over the left-hand
side's own enumerable properties. -/
lemma matchObjectsInternal_eq_matchFields (d o : JValue) :
    matchObjectsInternal d o = matchFields (jfields d) o := by
  cases d <;>
    simp [matchObjectsInternal, jfields, matchFields,
          matchItems_eq_matchFields, matchStrItems_eq_matchFields]

/-- The field loop succeeds when every listed property exists on the
observed value with equal run-time type and a matching value. -/
lemma matchFields_eq_true_of_forall (ko : JValue) (L : List (String × JValue))
    (h : ∀ p v, (p, v) ∈ L →
      hasKey ko p = true ∧
      typeOf v = typeOf (getProp ko p) ∧
      (typeOf v = "object" → matchObjectsInternal v (getProp ko p) = some true) ∧
      (typeOf v ≠ "object" → looseEq v (getProp ko p) = true)) :
    matchFields L ko = some true := by
  induction L with
  | nil => simp [matchFields]
  | cons hd tl ih =>
    obtain ⟨p, v⟩ := hd
    obtain ⟨hk, hty, hobj, hprim⟩ := h p v (List.mem_cons_self _ _)
    have htl : matchFields tl ko = some true :=
      ih (fun q w hm => h q w (List.mem_cons_of_mem _ hm))
    rw [matchFields, hasOwn_of_hasKey hk]
    simp only [← hty, ne_eq, not_true_eq_false, if_neg, if_false]
    by_cases hc : typeOf v = "object"
    · simp [hc, hobj hc, htl]
    · simp [hc, hprim hc, htl]

/-- A successful field loop implies every listed property exists on the
observed value. -/
lemma matchFields_true_hasOwn (ko : JValue) :
    ∀ L : List (String × JValue), matchFields L ko = some true →
      ∀ pv ∈ L, hasOwn ko pv.1 = some true := by
  intro L
  induction L with
  | nil => intro _ pv hm; simp at hm
  | cons hd tl ih =>
    obtain ⟨p, v⟩ := hd
    intro h pv hm
    rw [matchFields] at h
    cases ho : hasOwn ko p with
    | none => rw [ho] at h; simp at h
    | some b =>
      cases b with
      | false => rw [ho] at h; simp at h
      | true =>
        rw [ho] at h
        simp only at h
        rcases List.mem_cons.mp hm with hcase | hcase
        · subst hcase; exact ho
        · refine ih ?_ pv hcase
          by_cases h1 : typeOf v = typeOf (getProp ko p)
          · rw [if_neg (by simp [h1])] at h
            by_cases h2 : typeOf v = "object"
            · rw [if_pos h2] at h
              cases hmi : matchObjectsInternal v (getProp ko p) with
              | none => rw [hmi] at h; simp at h
              | some c =>
                rw [hmi] at h
                cases c with
                | false => simp at h
                | true => simpa using h
            · rw [if_neg h2] at h
              by_cases h3 : looseEq v (getProp ko p) = true
              · rw [if_pos h3] at h; exact h
              · rw [if_neg h3] at h; simp at h
          · rw [if_pos h1] at h; simp at h

/-! ## The specification-side containment relation (for claim C1) -/

/-- The containment relation stated by the spec's own words, as a second
definition to be compared with the source-derived matcher: `observed`
contains, at every depth, every property of `desired` with the same
run-time type and a loosely-equal value; properties present only in
`observed` are unconstrained (extra server-assigned fields are ignored). -/
inductive SpecContains : JValue → JValue → Prop where
  | intro (desired observed : JValue)
      (hkey : ∀ p v, (p, v) ∈ jfields desired → hasKey observed p = true)
      (hty : ∀ p v, (p, v) ∈ jfields desired →
        typeOf v = typeOf (getProp observed p))
      (hrec : ∀ p v, (p, v) ∈ jfields desired → typeOf v = "object" →
        SpecContains v (getProp observed p))
      (hprim : ∀ p v, (p, v) ∈ jfields desired → typeOf v ≠ "object" →
        looseEq v (getProp observed p) = true) :
      SpecContains desired observed

/-- **C1**: for every pair `(desired, observed)` such that `observed`
contains, at every depth, every property of `desired` with the same
run-time type and a loosely-equal value (`SpecContains`, written from the
spec's words; `observed` may have arbitrary extra properties at any depth),
`matchObjects desired observed` returns `true` — and, the comparison having
succeeded, records nothing and leaves the state unchanged. -/
theorem c1_matchObjects_of_specContains (desired observed : JValue)
    (st : RunState) (h : SpecContains desired observed) :
    matchObjects st desired observed = some (true, st) := by
  have key : matchObjectsInternal desired observed = some true := by
    induction h with
    | intro d o hkey hty hrec hprim ih =>
      rw [matchObjectsInternal_eq_matchFields]
      exact matchFields_eq_true_of_forall o (jfields d)
        (fun p v hm => ⟨hkey p v hm, hty p v hm,
          fun hc => ih p v hm hc, hprim p v hm⟩)
  simp [matchObjects, key]

/-- Witness for C1 at a concrete input: the observed object carries an
extra property `"b"` and an extra nested property `"y"`, and the match
still succeeds. -/
theorem c1_matchObjects_of_specContains_witness :
    matchObjects initialState
      (jobj [("a", jnum 1), ("c", jobj [("x", jstr "u")])])
      (jobj [("a", jnum 1), ("b", jstr "extra"),
             ("c", jobj [("x", jstr "u"), ("y", jbool true)])]) =
      some (true, initialState) := by
  refine c1_matchObjects_of_specContains _ _ _ ?_
  refine SpecContains.intro _ _ ?_ ?_ ?_ ?_
  · intro p v hm
    simp [jfields] at hm
    rcases hm with ⟨rfl, rfl⟩ | ⟨rfl, rfl⟩ <;> decide
  · intro p v hm
    simp [jfields] at hm
    rcases hm with ⟨rfl, rfl⟩ | ⟨rfl, rfl⟩ <;> decide
  · intro p v hm hc
    simp [jfields] at hm
    rcases hm with ⟨rfl, rfl⟩ | ⟨rfl, rfl⟩
    · simp [typeOf] at hc
    · refine SpecContains.intro _ _ ?_ ?_ ?_ ?_
      · intro q w hm'
        simp [jfields] at hm'
        rcases hm' with ⟨rfl, rfl⟩; decide
      · intro q w hm'
        simp [jfields] at hm'
        rcases hm' with ⟨rfl, rfl⟩; decide
      · intro q w hm' hc'
        simp [jfields] at hm'
        rcases hm' with ⟨rfl, rfl⟩
        simp [typeOf] at hc'
      · intro q w hm' _
        simp [jfields] at hm'
        rcases hm' with ⟨rfl, rfl⟩; decide
  · intro p v hm hc
    simp [jfields] at hm
    rcases hm with ⟨rfl, rfl⟩ | ⟨rfl, rfl⟩
    · decide
    · simp [typeOf] at hc

/-- **C3 (counterexample)**: the claim "whenever `desired` has a property
that `observed` lacks, `matchObjects` returns `false` (and records the
pair)" fails as stated: at this concrete input the desired object has the
property `"b"`, which the observed object lacks, yet `matchObjects` throws
a `TypeError` (result `none`) before reaching it — the recursion meets an
observed `null` under the object-typed desired property `"a"` and
`null.hasOwnProperty` throws — so it neither returns `false` nor records
the pair. -/
theorem c3_matchObjects_missing_prop_counterexample :
    (("b", (jnum 2 : JValue)) ∈
        [("a", (jobj [("x", jnum 1)] : JValue)), ("b", jnum 2)]) ∧
    hasKey (jobj [("a", (jnull : JValue))]) "b" = false ∧
    matchObjects { initialState with keepChangingActions := true }
      (jobj [("a", jobj [("x", jnum 1)]), ("b", jnum 2)])
      (jobj [("a", jnull)]) = none := by
  refine ⟨by simp, by decide, ?_⟩
  simp [matchObjects, matchObjectsInternal, matchFields, hasOwn, ownKeys,
        jfields, getProp, typeOf]

/-- **C3 (amended)**: for every pair `(desired, observed)` where `desired`
has at least one property that `observed` lacks, `matchObjects` never
returns `true`; whenever the comparison completes without throwing (the
recursion can throw a `TypeError` on an observed `null` under an
object-typed desired property, in which case nothing is returned or
recorded), it returns `false` and, exactly when mismatch-recording is
enabled (`_keepChangingActions`), the pair `(desired, observed)` is
appended to `failedComparisons` exactly once, the rest of the state being
kept. -/
theorem c3_matchObjects_missing_prop (fs : List (String × JValue))
    (observed : JValue) (p : String) (v : JValue) (st : RunState)
    (hmem : (p, v) ∈ fs) (hlack : hasKey observed p = false) :
    (∀ st', matchObjects st (jobj fs) observed ≠ some (true, st')) ∧
    (∀ r st', matchObjects st (jobj fs) observed = some (r, st') →
      r = false ∧
      st'.statistics.failedComparisons =
        st.statistics.failedComparisons ++
          (if st.keepChangingActions then
            [((jobj fs : JValue), observed)] else []) ∧
      st'.statistics.actions = st.statistics.actions ∧
      st'.statistics.counters = st.statistics.counters ∧
      st'.kongAvailable = st.kongAvailable ∧
      st'.calls = st.calls) := by
  have hnottrue : matchObjectsInternal (jobj fs) observed ≠ some true := by
    intro habs
    rw [matchObjectsInternal_eq_matchFields] at habs
    have := matchFields_true_hasOwn observed (jfields (jobj fs)) habs (p, v)
      (by simpa [jfields] using hmem)
    exact hasOwn_ne_true_of_not_hasKey hlack this
  unfold matchObjects
  cases hmi : matchObjectsInternal (jobj fs) observed with
  | none => exact ⟨fun st' => by simp, fun r st' => by simp⟩
  | some b =>
    cases b with
    | true => exact absurd hmi hnottrue
    | false =>
      constructor
      · intro st'
        by_cases hk : st.keepChangingActions <;> simp [hk]
      · intro r st' heq
        by_cases hk : st.keepChangingActions <;>
          · simp [hk] at heq
            obtain ⟨hr, hst⟩ := heq
            subst hr; subst hst
            simp [hk]

/-- Witness for the amended C3 at a concrete input: the desired object has
the property `"b"`, which the observed object lacks. -/
theorem c3_matchObjects_missing_prop_witness :
    (("b", (jnum 2 : JValue)) ∈ [("a", (jnum 1 : JValue)), ("b", jnum 2)]) ∧
    hasKey (jobj [("a", (jnum 1 : JValue))]) "b" = false ∧
    ((∀ st', matchObjects { initialState with keepChangingActions := true }
        (jobj [("a", jnum 1), ("b", jnum 2)]) (jobj [("a", jnum 1)]) ≠
        some (true, st')) ∧
     (∀ r st', matchObjects { initialState with keepChangingActions := true }
        (jobj [("a", jnum 1), ("b", jnum 2)]) (jobj [("a", jnum 1)]) =
        some (r, st') →
        r = false ∧
        st'.statistics.failedComparisons =
          ({ initialState with
              keepChangingActions := true } : RunState).statistics.failedComparisons ++
            (if ({ initialState with
                keepChangingActions := true } : RunState).keepChangingActions then
              [((jobj [("a", jnum 1), ("b", jnum 2)] : JValue),
                (jobj [("a", jnum 1)] : JValue))] else []) ∧
        st'.statistics.actions =
          ({ initialState with
              keepChangingActions := true } : RunState).statistics.actions ∧
        st'.statistics.counters =
          ({ initialState with
              keepChangingActions := true } : RunState).statistics.counters ∧
        st'.kongAvailable =
          ({ initialState with
              keepChangingActions := true } : RunState).kongAvailable ∧
        st'.calls = ({ initialState with
              keepChangingActions := true } : RunState).calls)) := by
  refine ⟨by simp, by decide, ?_⟩
  exact c3_matchObjects_missing_prop _ _ "b" (jnum 2) _ (by simp) (by decide)

/-- **C10**: a desired property whose value is `null` matches any
object-typed observed value (`null`, object or array): the run-time types
agree (`typeof null` is `"object"`) and the recursion over `null`, which
has no enumerable own properties, vacuously succeeds, so the matcher does
not report a mismatch for that property (shown on the single-property
desired object carrying it). -/
theorem c10_matchObjectsInternal_null_desired (p : String) (observed : JValue)
    (hkey : hasOwn observed p = some true)
    (hty : typeOf (getProp observed p) = "object") :
    matchObjectsInternal (jobj [(p, jnull)]) observed = some true := by
  rw [matchObjectsInternal_eq_matchFields]
  have hj : jfields (jobj [(p, jnull)]) = [(p, jnull)] := rfl
  rw [hj, matchFields, hkey]
  have hnull : matchObjectsInternal jnull (getProp observed p) = some true := by
    rw [matchObjectsInternal_eq_matchFields]
    simp [jfields, matchFields]
  simp only
  rw [if_neg (by rw [hty]; simp [typeOf]),
      if_pos (show typeOf (jnull : JValue) = "object" from rfl), hnull]
  simp [matchFields]

/-- Witness for C10: the observed value of `"a"` is a non-null object (with
its own extra content) while the desired value is `null`, and the match
succeeds. -/
theorem c10_matchObjectsInternal_null_desired_witness :
    hasOwn (jobj [("a", jobj [("x", jnum 7)])]) "a" = some true ∧
    typeOf (getProp (jobj [("a", jobj [("x", jnum 7)])]) "a") = "object" ∧
    matchObjectsInternal (jobj [("a", jnull)])
      (jobj [("a", jobj [("x", jnum 7)])]) = some true := by
  refine ⟨by decide, by decide, ?_⟩
  exact c10_matchObjectsInternal_null_desired "a" _ (by decide) (by decide)

/-! ## Executor lemmas -/

/-- One-step unfolding of the attempt loop on a transport failure. -/
lemma tryRequest_failure (tr : AttemptTransport) (method url : String)
    (ex attempt : Nat) (e : JsError) (st : RunState)
    (h : tr attempt = .failure e) :
    tryRequest tr method url ex attempt st =
      if attempt > KONG_MAX_ATTEMPTS then
        (.err e, { st with kongAvailable := true })
      else
        tryRequest tr method url ex (attempt + 1)
          { st with kongAvailable := false } := by
  rw [tryRequest, h]

/-- Behaviour of the attempt loop when the transport yields a response at
the given attempt. -/
lemma tryRequest_response (tr : AttemptTransport) (method url : String)
    (ex attempt code : Nat) (body : JValue) (st : RunState)
    (h : tr attempt = .response code body) :
    tryRequest tr method url ex attempt st =
      if ex ≠ code then
        (.err { message := "kongAction " ++ method ++ " on " ++ url ++
                  " did not return the expected status code (got: " ++
                  toString code ++ ", expected: " ++ toString ex ++ ").",
                status := some code },
         { st with kongAvailable := true })
      else
        (.ok (getJson body), { st with kongAvailable := true }) := by
  rw [tryRequest, h]

/-- The attempt loop only ever touches the availability flag of the state,
it always leaves the gate available on exit, and it never throws. -/
lemma tryRequest_inv (tr : AttemptTransport) (method url : String) (ex : Nat) :
    ∀ (fuel attempt : Nat) (st : RunState),
      KONG_MAX_ATTEMPTS + 2 - attempt ≤ fuel →
      (tryRequest tr method url ex attempt st).2 =
        { st with kongAvailable := true } ∧
      ∀ m, (tryRequest tr method url ex attempt st).1 ≠ ActionResult.thrown m := by
  intro fuel
  induction fuel with
  | zero =>
    intro attempt st h
    have hgt : attempt > KONG_MAX_ATTEMPTS := by
      simp only [KONG_MAX_ATTEMPTS] at h ⊢; omega
    cases htr : tr attempt with
    | failure e =>
      rw [tryRequest_failure tr method url ex attempt e st htr, if_pos hgt]
      exact ⟨rfl, by simp⟩
    | response code body =>
      rw [tryRequest_response tr method url ex attempt code body st htr]
      by_cases hc : ex ≠ code
      · rw [if_pos hc]; exact ⟨rfl, by simp⟩
      · rw [if_neg hc]; exact ⟨rfl, by simp⟩
  | succ n ih =>
    intro attempt st h
    cases htr : tr attempt with
    | failure e =>
      rw [tryRequest_failure tr method url ex attempt e st htr]
      by_cases hgt : attempt > KONG_MAX_ATTEMPTS
      · rw [if_pos hgt]; exact ⟨rfl, by simp⟩
      · rw [if_neg hgt]
        have := ih (attempt + 1) { st with kongAvailable := false }
          (by simp only [KONG_MAX_ATTEMPTS] at h ⊢; omega)
        simpa using this
    | response code body =>
      rw [tryRequest_response tr method url ex attempt code body st htr]
      by_cases hc : ex ≠ code
      · rw [if_pos hc]; exact ⟨rfl, by simp⟩
      · rw [if_neg hc]; exact ⟨rfl, by simp⟩

/-- When the transport fails on every attempt, the loop gives up after the
attempt numbered `KONG_MAX_ATTEMPTS + 1` (so after issuing that attempt as
well), surfaces that attempt's transport error, and re-opens the gate. -/
lemma tryRequest_allFail (tr : AttemptTransport) (method url : String)
    (ex : Nat) (errs : Nat → JsError)
    (hf : ∀ a, tr a = .failure (errs a)) :
    ∀ (fuel attempt : Nat) (st : RunState),
      KONG_MAX_ATTEMPTS + 1 - attempt ≤ fuel →
      attempt ≤ KONG_MAX_ATTEMPTS + 1 →
      tryRequest tr method url ex attempt st =
        (.err (errs (KONG_MAX_ATTEMPTS + 1)),
         { st with kongAvailable := true }) := by
  intro fuel
  induction fuel with
  | zero =>
    intro attempt st h hle
    have heq : attempt = KONG_MAX_ATTEMPTS + 1 := by
      simp only [KONG_MAX_ATTEMPTS] at h hle ⊢; omega
    subst heq
    rw [tryRequest_failure tr method url ex _ _ st (hf _),
        if_pos (by simp only [KONG_MAX_ATTEMPTS]; omega)]
  | succ n ih =>
    intro attempt st h hle
    by_cases heq : attempt = KONG_MAX_ATTEMPTS + 1
    · subst heq
      rw [tryRequest_failure tr method url ex _ _ st (hf _),
          if_pos (by simp only [KONG_MAX_ATTEMPTS]; omega)]
    · have hlt : attempt ≤ KONG_MAX_ATTEMPTS := by
        simp only [KONG_MAX_ATTEMPTS] at hle heq ⊢; omega
      rw [tryRequest_failure tr method url ex _ _ st (hf _),
          if_neg (by simp only [KONG_MAX_ATTEMPTS] at hlt ⊢; omega)]
      rw [ih (attempt + 1) _
        (by simp only [KONG_MAX_ATTEMPTS] at h hlt ⊢; omega)
        (by simp only [KONG_MAX_ATTEMPTS] at hlt ⊢; omega)]

/-- Unfolding of `kongAction` when the gate is open and a Kong URL is set:
statistics are recorded, the call is appended to the trace, and the
attempt loop runs on that state. -/
lemma kongAction_open (t : Transport) (method url : String) (body : JValue)
    (ex : Nat) (st : RunState) (u₀ : String)
    (hav : st.kongAvailable = true) (hurl : st.kongUrl = some u₀) :
    kongAction t method url body ex st =
      tryRequest (t st.calls.length) method url ex 0
        (issuedState method url body st) := by
  unfold kongAction
  have h1 : (kongActionStat method url body st).kongAvailable = true := hav
  have h2 : (kongActionStat method url body st).kongUrl = some u₀ := hurl
  rw [if_neg (by simp [h1])]
  rw [h2]
  simp only [issuedState, kongActionStat, hurl]

/-- A successful `kongAction` implies the gate was open and a URL was set,
and determines the final state: statistics recorded, the call traced, gate
available. -/
lemma kongAction_ok_state (t : Transport) (method url : String)
    (body : JValue) (ex : Nat) (st st' : RunState) (v : JValue)
    (h : kongAction t method url body ex st = (.ok v, st')) :
    st.kongAvailable = true ∧ st.kongUrl ≠ none ∧
    st' = { issuedState method url body st with kongAvailable := true } := by
  by_cases hav : st.kongAvailable
  · cases hurl : st.kongUrl with
    | none =>
      exfalso
      unfold kongAction at h
      rw [if_neg (by simpa [kongActionStat] using hav)] at h
      have hh : (kongActionStat method url body st).kongUrl = none := hurl
      rw [hh] at h
      simp at h
    | some u₀ =>
      refine ⟨hav, by simp [hurl], ?_⟩
      rw [kongAction_open t method url body ex st u₀ hav hurl] at h
      have hinv := (tryRequest_inv (t st.calls.length) method url ex
        (KONG_MAX_ATTEMPTS + 2) 0 (issuedState method url body st)
        (by omega)).1
      have hsnd := congrArg Prod.snd h
      simp only at hsnd
      rw [hinv] at hsnd
      rw [← hsnd]
  · exfalso
    unfold kongAction at h
    rw [if_pos (by simpa [kongActionStat] using hav)] at h
    simp at h

/-- An erroring `kongAction` from an open gate with a URL set also traced
the call and left the gate available. -/
lemma kongAction_err_state (t : Transport) (method url : String)
    (body : JValue) (ex : Nat) (st st' : RunState) (e : JsError)
    (u₀ : String) (hav : st.kongAvailable = true)
    (hurl : st.kongUrl = some u₀)
    (h : kongAction t method url body ex st = (.err e, st')) :
    st' = { issuedState method url body st with kongAvailable := true } := by
  rw [kongAction_open t method url body ex st u₀ hav hurl] at h
  have hinv := (tryRequest_inv (t st.calls.length) method url ex
    (KONG_MAX_ATTEMPTS + 2) 0 (issuedState method url body st)
    (by omega)).1
  have hsnd := congrArg Prod.snd h
  simp only at hsnd
  rw [hinv] at hsnd
  rw [← hsnd]

/-- Whatever the network does, `kongAction` records exactly the
`kongActionStat` statistics update and preserves the
keep-changing-actions flag. -/
lemma kongAction_stats (t : Transport) (method url : String) (body : JValue)
    (ex : Nat) (st : RunState) :
    (kongAction t method url body ex st).2.statistics =
      (kongActionStat method url body st).statistics ∧
    (kongAction t method url body ex st).2.keepChangingActions =
      st.keepChangingActions := by
  by_cases hav : st.kongAvailable
  · cases hurl : st.kongUrl with
    | none =>
      unfold kongAction
      rw [if_neg (by simpa [kongActionStat] using hav)]
      have hh : (kongActionStat method url body st).kongUrl = none := hurl
      rw [hh]
      exact ⟨rfl, rfl⟩
    | some u₀ =>
      rw [kongAction_open t method url body ex st u₀ hav hurl]
      have hinv := (tryRequest_inv (t st.calls.length) method url ex
        (KONG_MAX_ATTEMPTS + 2) 0 (issuedState method url body st)
        (by omega)).1
      rw [hinv]
      exact ⟨rfl, rfl⟩
  · unfold kongAction
    rw [if_pos (by simpa [kongActionStat] using hav)]
    exact ⟨rfl, rfl⟩

/-! ## Claims about the executor -/

/-- **C2**: for every request whose transport layer never yields a response
(it fails on attempts 0 through 10 and on the final attempt 11 as well),
`kongAction` delivers exactly one outcome to its callback — the transport
error of the final attempt — and immediately afterwards the availability
gate reports available (`isKongAvailable` is `true`): the gate is re-opened
before the error is surfaced. -/
theorem c2_kongAction_transport_exhaustion (t : Transport)
    (method url : String) (body : JValue) (ex : Nat) (st : RunState)
    (u₀ : String) (errs : Nat → JsError)
    (hav : st.kongAvailable = true) (hurl : st.kongUrl = some u₀)
    (hf : ∀ a, t st.calls.length a = .failure (errs a)) :
    kongAction t method url body ex st =
      (.err (errs (KONG_MAX_ATTEMPTS + 1)),
       { issuedState method url body st with kongAvailable := true }) ∧
    isKongAvailable (kongAction t method url body ex st).2 = true := by
  have hmain : kongAction t method url body ex st =
      (.err (errs (KONG_MAX_ATTEMPTS + 1)),
       { issuedState method url body st with kongAvailable := true }) := by
    rw [kongAction_open t method url body ex st u₀ hav hurl]
    exact tryRequest_allFail (t st.calls.length) method url ex errs hf
      (KONG_MAX_ATTEMPTS + 1) 0 (issuedState method url body st)
      (by omega) (by omega)
  exact ⟨hmain, by rw [hmain]; rfl⟩

/-- Witness for C2: a transport refusing every connection. -/
theorem c2_kongAction_transport_exhaustion_witness :
    kongAction (fun _ _ => .failure ⟨"connect ECONNREFUSED", none⟩)
      "GET" "status" jnull 200
      { initialState with kongUrl := some "http://localhost:8001" } =
      (.err ⟨"connect ECONNREFUSED", none⟩,
       { issuedState "GET" "status" jnull
           { initialState with kongUrl := some "http://localhost:8001" } with
         kongAvailable := true }) ∧
    isKongAvailable (kongAction
      (fun _ _ => .failure ⟨"connect ECONNREFUSED", none⟩)
      "GET" "status" jnull 200
      { initialState with kongUrl := some "http://localhost:8001" }).2 = true :=
  c2_kongAction_transport_exhaustion _ "GET" "status" jnull 200 _
    "http://localhost:8001" (fun _ => ⟨"connect ECONNREFUSED", none⟩)
    rfl rfl (fun _ => rfl)

/-- **C4 (counterexample)**: the claim that the unexpected-status error
"carries the response body" fails: two runs whose responses differ only in
their bodies produce *identical* outcomes (the same error and the same
state), so no part of the outcome carries the response body — the source
only debug-logs it. -/
theorem c4_unexpected_status_counterexample :
    kongAction (fun _ _ => .response 500 (jstr "bodyA")) "GET" "status"
      jnull 200 { initialState with kongUrl := some "http://localhost:8001" } =
    kongAction (fun _ _ => .response 500 (jstr "bodyB")) "GET" "status"
      jnull 200 { initialState with kongUrl := some "http://localhost:8001" } ∧
    (jstr "bodyA" : JValue) ≠ jstr "bodyB" := by
  have hne : (200 : Nat) ≠ 500 := by decide
  constructor
  · rw [kongAction_open _ "GET" "status" jnull 200 _ "http://localhost:8001"
          rfl rfl,
        kongAction_open _ "GET" "status" jnull 200 _ "http://localhost:8001"
          rfl rfl,
        tryRequest_response _ _ _ _ 0 500 (jstr "bodyA") _ rfl,
        tryRequest_response _ _ _ _ 0 500 (jstr "bodyB") _ rfl,
        if_pos hne, if_pos hne]
  · simp

/-- **C4 (amended)**: for every request that receives a response whose
status code differs from the verb's expected status code, `kongAction`
fails with an error that carries the actual status code (as the error's
`status` property and in its message) and the expected status code (in its
message); the response body is not attached to the error (it is only
debug-logged). -/
theorem c4_kongAction_unexpected_status (t : Transport) (method url : String)
    (body : JValue) (ex : Nat) (st : RunState) (u₀ : String)
    (code : Nat) (rbody : JValue)
    (hav : st.kongAvailable = true) (hurl : st.kongUrl = some u₀)
    (hresp : t st.calls.length 0 = .response code rbody)
    (hcode : ex ≠ code) :
    kongAction t method url body ex st =
      (.err { message := "kongAction " ++ method ++ " on " ++ url ++
                " did not return the expected status code (got: " ++
                toString code ++ ", expected: " ++ toString ex ++ ").",
              status := some code },
       { issuedState method url body st with kongAvailable := true }) := by
  rw [kongAction_open t method url body ex st u₀ hav hurl,
      tryRequest_response _ method url ex 0 code rbody _ hresp,
      if_pos hcode]

/-- Witness for the amended C4: a 404 where a 200 was expected. -/
theorem c4_kongAction_unexpected_status_witness :
    kongAction (fun _ _ => .response 404 (jstr "not found")) "GET"
      "consumers/foo" jnull 200
      { initialState with kongUrl := some "http://localhost:8001" } =
      (.err { message := "kongAction " ++ "GET" ++ " on " ++ "consumers/foo" ++
                " did not return the expected status code (got: " ++
                toString 404 ++ ", expected: " ++ toString 200 ++ ").",
              status := some 404 },
       { issuedState "GET" "consumers/foo" jnull
           { initialState with kongUrl := some "http://localhost:8001" } with
         kongAvailable := true }) :=
  c4_kongAction_unexpected_status _ "GET" "consumers/foo" jnull 200 _
    "http://localhost:8001" 404 (jstr "not found") rfl rfl rfl (by decide)

/-- **C9**: a `kongAction` issued while the availability gate reports
unavailable still increments the verb counter (and, for non-GET verbs with
action-logging enabled, still appends an action-log entry), even though
the call fails fast with the endpoint-unavailable error and no network
request is issued (the statistics are recorded before the gate is
consulted and the instrumentation trace of issued calls is untouched):
statistics count logical calls, not issued requests. -/
theorem c9_kongAction_unavailable_still_counts (t : Transport)
    (method url : String) (body : JValue) (ex : Nat) (st : RunState)
    (hun : st.kongAvailable = false) :
    kongAction t method url body ex st =
      (.err { message := "kong admin end point not available: " ++
                templateStr st.kongMessage, status := some 500 },
       kongActionStat method url body st) ∧
    (kongActionStat method url body st).statistics.counters method =
      st.statistics.counters method + 1 ∧
    (st.keepChangingActions = true → method ≠ "GET" →
      (kongActionStat method url body st).statistics.actions =
        st.statistics.actions ++
          [{ method := method, url := url, body := body }]) ∧
    (kongActionStat method url body st).calls = st.calls := by
  refine ⟨?_, ?_, ?_, rfl⟩
  · unfold kongAction
    rw [if_pos (by simpa [kongActionStat] using hun)]
    rfl
  · simp [kongActionStat]
  · intro hk hm
    simp [kongActionStat, hk, hm]

/-- Witness for C9: a POST while the gate is closed, with action-logging
enabled. -/
theorem c9_kongAction_unavailable_still_counts_witness :
    kongAction (fun _ _ => .response 201 (jobj [])) "POST" "services"
      (jobj [("name", jstr "svc")]) 201
      { initialState with
        kongAvailable := false, keepChangingActions := true,
        kongMessage := jstr "connect ECONNREFUSED" } =
      (.err { message := "kong admin end point not available: " ++
                templateStr (jstr "connect ECONNREFUSED"), status := some 500 },
       kongActionStat "POST" "services" (jobj [("name", jstr "svc")])
        { initialState with
          kongAvailable := false, keepChangingActions := true,
          kongMessage := jstr "connect ECONNREFUSED" }) ∧
    (kongActionStat "POST" "services" (jobj [("name", jstr "svc")])
      { initialState with
        kongAvailable := false, keepChangingActions := true,
        kongMessage := jstr "connect ECONNREFUSED" }).statistics.counters
        "POST" =
      ({ initialState with
        kongAvailable := false, keepChangingActions := true,
        kongMessage := jstr "connect ECONNREFUSED" } :
          RunState).statistics.counters "POST" + 1 ∧
    (({ initialState with
        kongAvailable := false, keepChangingActions := true,
        kongMessage := jstr "connect ECONNREFUSED" } :
          RunState).keepChangingActions = true → "POST" ≠ "GET" →
      (kongActionStat "POST" "services" (jobj [("name", jstr "svc")])
        { initialState with
          kongAvailable := false, keepChangingActions := true,
          kongMessage := jstr "connect ECONNREFUSED" }).statistics.actions =
        ({ initialState with
          kongAvailable := false, keepChangingActions := true,
          kongMessage := jstr "connect ECONNREFUSED" } :
            RunState).statistics.actions ++
          [{ method := "POST", url := "services",
             body := jobj [("name", jstr "svc")] }]) ∧
    (kongActionStat "POST" "services" (jobj [("name", jstr "svc")])
      { initialState with
        kongAvailable := false, keepChangingActions := true,
        kongMessage := jstr "connect ECONNREFUSED" }).calls =
      ({ initialState with
        kongAvailable := false, keepChangingActions := true,
        kongMessage := jstr "connect ECONNREFUSED" } : RunState).calls :=
  c9_kongAction_unavailable_still_counts _ "POST" "services"
    (jobj [("name", jstr "svc")]) 201 _ rfl

/-- **C8**: after `resetStatistics(true)` followed by one create
(`kongPostService`, a POST) and one list (`kongGetAllServices`, a GET)
call — whatever the network does on either call — `getStatistics()` returns
a POST counter of exactly 1, a GET counter of at least 1, and an action log
containing exactly the one POST entry and no GET entry; and that
`getStatistics()` call clears the action-log retention flag, so a mutating
call issued afterwards no longer appends to the action log. -/
theorem c8_statistics_resync (t t2 t3 : Transport) (service : JValue)
    (st0 : RunState) (url3 : String) (body3 : JValue) (ex3 : Nat) :
    (getStatistics (kongGetAllServices t2 (kongPostService t service
        (resetStatistics true st0)).2).2).1.counters "POST" = 1 ∧
    1 ≤ (getStatistics (kongGetAllServices t2 (kongPostService t service
        (resetStatistics true st0)).2).2).1.counters "GET" ∧
    (getStatistics (kongGetAllServices t2 (kongPostService t service
        (resetStatistics true st0)).2).2).1.actions =
      [{ method := "POST", url := "services", body := service }] ∧
    (getStatistics (kongGetAllServices t2 (kongPostService t service
        (resetStatistics true st0)).2).2).2.keepChangingActions = false ∧
    (kongAction t3 "POST" url3 body3 ex3
        (getStatistics (kongGetAllServices t2 (kongPostService t service
          (resetStatistics true st0)).2).2).2).2.statistics.actions =
      (getStatistics (kongGetAllServices t2 (kongPostService t service
        (resetStatistics true st0)).2).2).1.actions := by
  have h1 := kongAction_stats t "POST" "services" service 201
    (resetStatistics true st0)
  have h2 := kongAction_stats t2 "GET" "services?size=100000" jnull 200
    (kongPostService t service (resetStatistics true st0)).2
  have h3 := kongAction_stats t3 "POST" url3 body3 ex3
    (getStatistics (kongGetAllServices t2 (kongPostService t service
      (resetStatistics true st0)).2).2).2
  simp only [kongGetAllServices, kongGet, kongPostService, kongPost,
    getStatistics] at h1 h2 h3 ⊢
  rw [h3.1, h2.1]
  simp only [kongActionStat]
  rw [h1.1]
  simp [kongActionStat, resetStatistics, defaultStatistics, h1.2, h2.2]

/-! ## Claims about the composite API operations -/

/-- **C5**: for every composite API creation via `kongPostApi` where the
Service POST succeeds and the subsequent Route POST fails, the Service POST
is issued before the Route POST (the trace of issued calls extends by
exactly those two calls, in that order), the posted Route's `service`
reference carries the identifier returned by the Service creation, the
Route POST's error is returned to the caller unchanged, and no DELETE of
the created Service — indeed no call beyond the two POSTs — is ever
issued: there is no automatic rollback. -/
theorem c5_kongPostApi_no_rollback (t : Transport) (apiConfig : JValue)
    (st st1 st2 : RunState) (s : JValue) (e : JsError)
    (h1 : kongPostService t (kongApiToServiceRoute apiConfig).1 st =
      (.ok s, st1))
    (h2 : kongPostRoute t
      (setProp (kongApiToServiceRoute apiConfig).2 "service"
        (jobj [("id", getProp s "id")])) st1 = (.err e, st2)) :
    kongPostApi t apiConfig st = (.err e, st2) ∧
    st2.calls = st.calls ++
      [{ method := "POST", url := "services",
         body := (kongApiToServiceRoute apiConfig).1 },
       { method := "POST", url := "routes",
         body := setProp (kongApiToServiceRoute apiConfig).2 "service"
           (jobj [("id", getProp s "id")]) }] ∧
    getProp (getProp (setProp (kongApiToServiceRoute apiConfig).2 "service"
        (jobj [("id", getProp s "id")])) "service") "id" = getProp s "id" ∧
    (∀ c ∈ st2.calls, c ∈ st.calls ∨ c.method = "POST") := by
  have hmain : kongPostApi t apiConfig st = (.err e, st2) := by
    simp only [kongPostApi]
    rw [h1]
    simp only [h2]
  have hk1 := kongAction_ok_state t "POST" "services"
    (kongApiToServiceRoute apiConfig).1 201 st st1 s h1
  obtain ⟨hav, hurlne, hst1⟩ := hk1
  obtain ⟨u₀, hurl⟩ := Option.ne_none_iff_exists'.mp hurlne
  have hav1 : st1.kongAvailable = true := by rw [hst1]
  have hurl1 : st1.kongUrl = some u₀ := by
    rw [hst1]; simpa [issuedState] using hurl
  have hst2 := kongAction_err_state t "POST" "routes"
    (setProp (kongApiToServiceRoute apiConfig).2 "service"
      (jobj [("id", getProp s "id")])) 201 st1 st2 e u₀ hav1 hurl1 h2
  have hcalls1 : st1.calls = st.calls ++
      [{ method := "POST", url := "services",
         body := (kongApiToServiceRoute apiConfig).1 }] := by
    rw [hst1]; simp [issuedState]
  have hcalls2 : st2.calls = st.calls ++
      [{ method := "POST", url := "services",
         body := (kongApiToServiceRoute apiConfig).1 },
       { method := "POST", url := "routes",
         body := setProp (kongApiToServiceRoute apiConfig).2 "service"
           (jobj [("id", getProp s "id")]) }] := by
    rw [hst2]
    simp [issuedState, hcalls1]
  refine ⟨hmain, hcalls2, ?_, ?_⟩
  · simp [kongApiToServiceRoute, setProp, setField, getProp]
  · intro c hc
    rw [hcalls2] at hc
    rcases List.mem_append.mp hc with hcl | hcl
    · exact Or.inl hcl
    · right
      simp only [List.mem_cons, List.not_mem_nil, or_false] at hcl
      rcases hcl with rfl | rfl <;> rfl

/-- Witness for C5: the Service POST returns 201 with a generated id, the
Route POST is answered 409; the run issues exactly the two POSTs in order
and surfaces the Route error. -/
theorem c5_kongPostApi_no_rollback_witness :
    (kongPostApi
        (fun ci _ => if ci = 0 then
          TransportResult.response 201 (jobj [("id", jstr "s1")])
          else TransportResult.response 409 jnull)
        (jobj []) { initialState with kongUrl := some "k" }).1 =
      .err { message := "kongAction " ++ "POST" ++ " on " ++ "routes" ++
               " did not return the expected status code (got: " ++
               toString 409 ++ ", expected: " ++ toString 201 ++ ").",
             status := some 409 } ∧
    (kongPostApi
        (fun ci _ => if ci = 0 then
          TransportResult.response 201 (jobj [("id", jstr "s1")])
          else TransportResult.response 409 jnull)
        (jobj []) { initialState with kongUrl := some "k" }).2.calls =
      [{ method := "POST", url := "services",
         body := (kongApiToServiceRoute (jobj [])).1 },
       { method := "POST", url := "routes",
         body := setProp (kongApiToServiceRoute (jobj [])).2 "service"
           (jobj [("id", getProp (jobj [("id", jstr "s1")]) "id")]) }] ∧
    getProp (getProp (setProp (kongApiToServiceRoute (jobj [])).2 "service"
        (jobj [("id", getProp (jobj [("id", jstr "s1")]) "id")])) "service")
      "id" = getProp (jobj [("id", jstr "s1")]) "id" := by
  have h1 : kongPostService
      (fun ci _ => if ci = 0 then
        TransportResult.response 201 (jobj [("id", jstr "s1")])
        else TransportResult.response 409 jnull)
      (kongApiToServiceRoute (jobj [])).1
      { initialState with kongUrl := some "k" } =
      (.ok (jobj [("id", jstr "s1")]),
       { issuedState "POST" "services" (kongApiToServiceRoute (jobj [])).1
           { initialState with kongUrl := some "k" } with
         kongAvailable := true }) := by
    simp only [kongPostService, kongPost]
    rw [kongAction_open _ "POST" "services" _ 201 _ "k" rfl rfl,
        tryRequest_response _ _ _ _ 0 201 (jobj [("id", jstr "s1")]) _ rfl,
        if_neg (by decide)]
    rfl
  have h2 : kongPostRoute
      (fun ci _ => if ci = 0 then
        TransportResult.response 201 (jobj [("id", jstr "s1")])
        else TransportResult.response 409 jnull)
      (setProp (kongApiToServiceRoute (jobj [])).2 "service"
        (jobj [("id", getProp (jobj [("id", jstr "s1")]) "id")]))
      { issuedState "POST" "services" (kongApiToServiceRoute (jobj [])).1
          { initialState with kongUrl := some "k" } with
        kongAvailable := true } =
      (.err { message := "kongAction " ++ "POST" ++ " on " ++ "routes" ++
                " did not return the expected status code (got: " ++
                toString 409 ++ ", expected: " ++ toString 201 ++ ").",
              status := some 409 },
       { issuedState "POST" "routes"
           (setProp (kongApiToServiceRoute (jobj [])).2 "service"
             (jobj [("id", getProp (jobj [("id", jstr "s1")]) "id")]))
           { issuedState "POST" "services" (kongApiToServiceRoute (jobj [])).1
               { initialState with kongUrl := some "k" } with
             kongAvailable := true } with
         kongAvailable := true }) := by
    simp only [kongPostRoute, kongPost]
    rw [kongAction_open _ "POST" "routes" _ 201 _ "k" rfl rfl,
        tryRequest_response _ _ _ _ 0 409 jnull _ rfl,
        if_pos (by decide)]
  have w := c5_kongPostApi_no_rollback _ (jobj [])
    { initialState with kongUrl := some "k" } _ _ _ _ h1 h2
  exact ⟨by rw [w.1], by rw [w.1]; exact w.2.1, w.2.2.1⟩

/-- **C6** (code bug): when no route exists for the service — the lookup
`GET services/{id}/routes` answers 200 with `{data: []}`, so
`kongGetRouteForService` hands back `null` — `kongDeleteApi` does not
deliver an error to the caller's callback: the source dereferences
`route.id` on the `null` lookup result without a check, a `TypeError` is
thrown (outcome `.thrown`) and the callback is never invoked, contradicting
the claimed fatal-but-delivered `UnknownReference`-style error. -/
theorem c6_kongDeleteApi_missing_route_throws (t : Transport)
    (apiId : String) (st : RunState) (u₀ : String)
    (hav : st.kongAvailable = true) (hurl : st.kongUrl = some u₀)
    (hresp : t st.calls.length 0 = .response 200 (jobj [("data", jarr [])])) :
    (kongDeleteApi t apiId st).1 =
      ActionResult.thrown "TypeError: cannot read id of null" := by
  unfold kongDeleteApi kongGetRouteForService
  simp only [kongGet]
  rw [kongAction_open t "GET" ("services/" ++ apiId ++ "/routes") jnull 200 st
        u₀ hav hurl,
      tryRequest_response _ _ _ _ 0 200 (jobj [("data", jarr [])]) _ hresp,
      if_neg (by decide)]
  rfl

/-- Witness for C6: a gateway holding no route for service `svc1`. -/
theorem c6_kongDeleteApi_missing_route_throws_witness :
    (kongDeleteApi (fun _ _ => .response 200 (jobj [("data", jarr [])]))
      "svc1" { initialState with kongUrl := some "k" }).1 =
      ActionResult.thrown "TypeError: cannot read id of null" :=
  c6_kongDeleteApi_missing_route_throws _ "svc1" _ "k" rfl rfl rfl

/-- **C7** (code bug): a route-lookup error in `kongPatchApi` is not
surfaced to the caller: the source has `if (err) return err;` inside the
lookup callback, so the error value is returned into the void and the
caller's callback is never invoked (`noCallback`) — shown for a lookup
answered with an unexpected status code.  (The other sub-call errors are
also mishandled: the series' final callback ignores its error argument.) -/
theorem c7_kongPatchApi_lookup_error_no_callback (t : Transport)
    (apiId : String) (apiConfig : JValue) (st : RunState) (u₀ : String)
    (code : Nat) (body : JValue)
    (hav : st.kongAvailable = true) (hurl : st.kongUrl = some u₀)
    (hresp : t st.calls.length 0 = .response code body)
    (hcode : code ≠ 200) :
    (kongPatchApi t apiId apiConfig st).1 = CompositeResult.noCallback := by
  unfold kongPatchApi kongGetRouteForService
  simp only [kongGet]
  rw [kongAction_open t "GET" ("services/" ++ apiId ++ "/routes") jnull 200 st
        u₀ hav hurl,
      tryRequest_response _ _ _ _ 0 code body _ hresp,
      if_pos (Ne.symm hcode)]

/-- Witness for C7: the route lookup is answered 500, and the patch
operation returns without ever invoking the callback. -/
theorem c7_kongPatchApi_lookup_error_no_callback_witness :
    (kongPatchApi (fun _ _ => .response 500 (jstr "oops")) "svc1"
      (jobj []) { initialState with kongUrl := some "k" }).1 =
      CompositeResult.noCallback :=
  c7_kongPatchApi_lookup_error_no_callback _ "svc1" (jobj []) _ "k" 500
    (jstr "oops") rfl rfl rfl (by decide)

end KongAdapter
